import Mathlib

/-!
# Verification of the Cybernetic AR HUD core (`advanced_cybernetic_hud.py`)

Shallow embedding of the repository gesture classifier, hand-processing
loop, telemetry battery model, radar contact manager, animation-state
effects of the radar widget, and the progress-bar drawing primitive.

Conventions of the embedding:
* mediapipe landmark coordinates are normalized floats used only through
  exact comparisons (coordinate order, a distance threshold); they are
  modelled as rationals, on which all of those comparisons are exact;
* a Python IndexError raised by list indexing is modelled with
  `Except PyErr`;
* calls to the `random` module are externalized: each random draw becomes an
  explicit argument; the documented semantics of `random.randint(a, b)`
  (an integer N with a <= N <= b, both endpoints included) is modelled by
  `randint`;
* drawing targets (numpy buffers written through cv2 primitives) are
  modelled as pixel maps with explicit clipping to the buffer bounds.
-/

/-- A raised Python exception relevant to the embedded code. -/
inductive PyErr where
  | indexError
  deriving DecidableEq, Repr

/-- One mediapipe hand landmark.  The classifier reads only the `x` and `y`
normalized coordinates (`z` is never accessed in the source), modelled
exactly as rationals. -/
structure Landmark where
  x : ℚ
  y : ℚ
  deriving DecidableEq, Repr

/-- The helper `is_finger_extended(tip, pip)` inside `recognize_gesture`
(line 151): `tip.y < pip.y` (smaller y = higher on screen). -/
def is_finger_extended (tip pip : Landmark) : Bool :=
  decide (tip.y < pip.y)

/-- Squared planar distance between two landmarks.  The method
`calculate_distance` (line 197) returns
`math.sqrt((p1.x-p2.x)**2 + (p1.y-p2.y)**2)`; we carry the square, which
determines the one comparison the source makes with it. -/
def calculate_distance_sq (p1 p2 : Landmark) : ℚ :=
  (p1.x - p2.x) ^ 2 + (p1.y - p2.y) ^ 2

/-- The test `calculate_distance(thumb_tip, index_tip) < 0.05` (line 184).
Since both sides of that comparison are nonnegative, `sqrt d < 0.05` holds
iff `d < 0.05 ^ 2`, so the test is embedded exactly on the squared
distance. -/
def thumb_index_close (thumb_tip index_tip : Landmark) : Bool :=
  decide (calculate_distance_sq thumb_tip index_tip < (5 / 100) ^ 2)

/-- The fixed-priority if/elif chain of `recognize_gesture` (lines 154-195),
expressed over the six boolean tests the source computes: the five
finger-extension predicates and the thumb/index closeness test.
Branch order and branch conditions follow the source line by line. -/
def classify_chain (extThumb extIndex extMiddle extRing extPinky okClose : Bool) : String :=
  if extIndex && extMiddle && !extRing && !extPinky then "peace"
  else if extThumb && !(extIndex || extMiddle || extRing || extPinky) then "thumbs_up"
  else if !extThumb && !(extIndex || extMiddle || extRing || extPinky) then "thumbs_down"
  else if !extIndex && !extMiddle && !extRing && !extPinky then "fist"
  else if extIndex && extMiddle && extRing && extPinky then "open_palm"
  else if extIndex && !(extMiddle || extRing || extPinky) then "pointing"
  else if okClose && (extMiddle && extRing && extPinky) then "ok"
  else if extIndex && extPinky && !(extMiddle || extRing) then "rock"
  else "unknown"

/-- The classification of a full hand, given the ten landmarks the source
reads: `p3`/`p4` thumb IP joint and tip, `p6`/`p8` index PIP joint and tip,
`p10`/`p12` middle, `p14`/`p16` ring, `p18`/`p20` pinky. -/
def classify_points (p3 p4 p6 p8 p10 p12 p14 p16 p18 p20 : Landmark) : String :=
  classify_chain
    (is_finger_extended p4 p3)
    (is_finger_extended p8 p6)
    (is_finger_extended p12 p10)
    (is_finger_extended p16 p14)
    (is_finger_extended p20 p18)
    (thumb_index_close p4 p8)

/-- The method `recognize_gesture(landmarks)` (lines 140-195).
The guard `if not landmarks` returns "unknown" for an empty sequence; the
eager lookups `landmarks[4] ... landmarks[20]` (lines 145-149) raise
IndexError for any non-empty sequence of fewer than 21 points (index 20 is
read before any condition is evaluated) and make every later in-condition
lookup (indices 3, 6, 10, 14, 18) in-bounds; otherwise the if/elif chain
`classify_points` decides the label. -/
def recognize_gesture (landmarks : List Landmark) : Except PyErr String :=
  if landmarks = [] then .ok "unknown"
  else if h : landmarks.length < 21 then .error .indexError
  else
    .ok (classify_points
      (landmarks.get ⟨3, by omega⟩) (landmarks.get ⟨4, by omega⟩)
      (landmarks.get ⟨6, by omega⟩) (landmarks.get ⟨8, by omega⟩)
      (landmarks.get ⟨10, by omega⟩) (landmarks.get ⟨12, by omega⟩)
      (landmarks.get ⟨14, by omega⟩) (landmarks.get ⟨16, by omega⟩)
      (landmarks.get ⟨18, by omega⟩) (landmarks.get ⟨20, by omega⟩))

/-- The loop of `process_hands` (lines 548-566): `gesture` starts as
"no_hand" and is reassigned to `recognize_gesture(hand_landmarks.landmark)`
for each detected hand in order; an exception in the classifier
propagates. -/
def process_hands_loop : String → List (List Landmark) → Except PyErr String
  | gesture, [] => .ok gesture
  | _, hand :: rest => do
      let g ← recognize_gesture hand
      process_hands_loop g rest

/-- The gesture value returned by `process_hands` (lines 543-568) for one
frame, as a function of the landmark lists of the detected hands (the frame
painting in that method does not affect the returned gesture and is
omitted). -/
def process_hands (hands : List (List Landmark)) : Except PyErr String :=
  process_hands_loop "no_hand" hands

/-- A synthetic full hand: 21 landmarks at `x = 0` with prescribed heights. -/
def mkHand (f : Nat → ℚ) : List Landmark :=
  (List.range 21).map (fun i => { x := 0, y := f i })

/-- Heights of a hand with index and middle tips raised. -/
def yPeace : Nat → ℚ := fun i => if i = 8 ∨ i = 12 then 0 else 1

/-- Index and middle tips raised: classifies as "peace". -/
def handPeace : List Landmark := mkHand yPeace

/-- Heights of a hand with all four finger tips raised. -/
def yOpenPalm : Nat → ℚ := fun i => if i = 8 ∨ i = 12 ∨ i = 16 ∨ i = 20 then 0 else 1

/-- All four finger tips raised: classifies as "open_palm". -/
def handOpenPalm : List Landmark := mkHand yOpenPalm

/-- Heights of a hand with all four finger tips raised and the thumb tip at
the index tip (planar distance 0, below the 0.05 threshold). -/
def yOpenThumbClose : Nat → ℚ := fun i =>
  if i = 4 ∨ i = 8 ∨ i = 12 ∨ i = 16 ∨ i = 20 then 0 else 1

/-- All four finger tips raised, thumb tip touching the index tip. -/
def handOpenThumbClose : List Landmark := mkHand yOpenThumbClose

/-- Heights of a hand with every extension predicate false. -/
def yAllDown : Nat → ℚ := fun _ => 1

/-- Every extension predicate false (all landmarks at the same height). -/
def handAllDown : List Landmark := mkHand yAllDown

/-- Heights of a hand with middle, ring and pinky raised, index retracted,
thumb tip at the index tip. -/
def yOkPose : Nat → ℚ := fun i => if i = 12 ∨ i = 16 ∨ i = 20 then 0 else 1

/-- Middle, ring and pinky raised, index retracted, thumb tip touching the
index tip: classifies as "ok". -/
def handOkPose : List Landmark := mkHand yOkPose

/-- Python `int()` conversion of a float to an integer: truncation toward
zero.  For nonnegative arguments (the only ones the source produces on its
main paths) this is the floor. -/
def pyInt (q : ℚ) : ℤ := if 0 ≤ q then ⌊q⌋ else -⌊-q⌋

/-- A BGR pixel value. -/
abbrev Color := ℤ × ℤ × ℤ

/-- A drawing buffer (numpy image): bounds plus the pixel map.  A pixel is
addressed as `pix px py` with `px` the column and `py` the row, matching the
cv2 point convention used by the source. -/
structure Img where
  width : ℤ
  height : ℤ
  pix : ℤ → ℤ → Color

/-- `cv2.rectangle(img, (x1,y1), (x2,y2), color, -1)`: fill every pixel of
the axis-aligned rectangle spanned by the two corner points (in either
order), clipped to the buffer bounds. -/
def rect_filled (img : Img) (x1 y1 x2 y2 : ℤ) (c : Color) : Img :=
  { img with pix := fun px py =>
      if (0 ≤ px ∧ px < img.width ∧ 0 ≤ py ∧ py < img.height ∧
          min x1 x2 ≤ px ∧ px ≤ max x1 x2 ∧ min y1 y2 ≤ py ∧ py ≤ max y1 y2)
      then c else img.pix px py }

/-- `cv2.rectangle(img, (x1,y1), (x2,y2), color, 1)`: paint the one-pixel
border of the rectangle, clipped to the buffer bounds. -/
def rect_border (img : Img) (x1 y1 x2 y2 : ℤ) (c : Color) : Img :=
  { img with pix := fun px py =>
      if ((0 ≤ px ∧ px < img.width ∧ 0 ≤ py ∧ py < img.height) ∧
          (min x1 x2 ≤ px ∧ px ≤ max x1 x2 ∧ min y1 y2 ≤ py ∧ py ≤ max y1 y2) ∧
          (px = min x1 x2 ∨ px = max x1 x2 ∨ py = min y1 y2 ∨ py = max y1 y2))
      then c else img.pix px py }

/-- The method `draw_progress_bar(frame, position, width, height, progress)`
(lines 536-541): a dark filled track, a green filled portion whose right
edge is `x + int(width * progress)` — the fraction is used as given, with no
clamping in the source — and a one-pixel outline. -/
def draw_progress_bar (img : Img) (x y w h : ℤ) (progress : ℚ) : Img :=
  let track := rect_filled img x y (x + w) (y + h) (0, 30, 0)
  let fill := rect_filled track x y (x + pyInt ((w : ℚ) * progress)) (y + h) (0, 255, 0)
  rect_border fill x y (x + w) (y + h) (0, 150, 0)

/-- An all-black 20x10 buffer, used as a concrete drawing target. -/
def blackImg : Img :=
  { width := 20, height := 10, pix := fun _ _ => (0, 0, 0) }

/-- The battery simulation inside `update_system_metrics` (line 118):
`max(10, 100 - int(time_since_boot / 10))`, as a function of the elapsed
seconds since boot. -/
def update_battery_level (t : ℚ) : ℤ :=
  max 10 (100 - pyInt (t / 10))

/-- The affiliation of a radar blip (line 277). -/
inductive BlipType where
  | friend
  | neutral
  | hostile
  deriving DecidableEq, Repr

/-- One radar blip dictionary (lines 278-281). -/
structure Blip where
  angle : ℤ
  distance : ℤ
  btype : BlipType
  lifetime : ℤ
  deriving DecidableEq, Repr

/-- The radar panel edge length (line 249). -/
def radar_size : ℤ := 220

/-- Python `random.randint(a, b)`: per its documentation, a uniformly random
integer N with `a ≤ N ≤ b` — both endpoints included.  The draw is
externalized into a natural-number roll; every roll lands in `[a, b]` and
every value of `[a, b]` is reached by some roll. -/
def randint (a b : ℤ) (roll : ℕ) : ℤ :=
  a + (roll : ℤ) % (b - a + 1)

/-- Python `random.choice(['friend', 'neutral', 'hostile'])`, externalized
into a roll selecting one of the three affiliations. -/
def choice3 (roll : ℕ) : BlipType :=
  match roll % 3 with
  | 0 => .friend
  | 1 => .neutral
  | _ => .hostile

/-- The random draws one radar tick can make: `gate` is the outcome of
`random.random() < 0.1`, and the four rolls feed the two `randint` calls,
the `choice` call and the lifetime `randint` call of a spawn. -/
structure RadarRoll where
  gate : Bool
  angleRoll : ℕ
  distRoll : ℕ
  typeRoll : ℕ
  ltRoll : ℕ
  deriving DecidableEq, Repr

/-- The blip built by a spawn (lines 275-281): angle `randint(0, 360)`,
distance `randint(20, radar_size//2 - 30)`, a random affiliation, and
lifetime `randint(50, 200)`. -/
def spawn_radar_blip (r : RadarRoll) : Blip :=
  { angle := randint 0 360 r.angleRoll
    distance := randint 20 (radar_size / 2 - 30) r.distRoll
    btype := choice3 r.typeRoll
    lifetime := randint 50 200 r.ltRoll }

/-- The radar-blip state update performed by one call of
`draw_radar_display` (lines 274-299): spawn a blip when the gate fires and
fewer than 8 blips exist, then decrement every lifetime by 1 and drop the
blips whose lifetime reached 0. -/
def update_radar_blips (r : RadarRoll) (blips : List Blip) : List Blip :=
  let afterSpawn :=
    if r.gate ∧ blips.length < 8 then blips ++ [spawn_radar_blip r] else blips
  (afterSpawn.map (fun b => { b with lifetime := b.lifetime - 1 })).filter
    (fun b => decide (0 < b.lifetime))

/-- The radar blip set reached from the initial empty set (line 35) by a
sequence of ticks with the given random draws. -/
def run_radar (rolls : List RadarRoll) : List Blip :=
  rolls.foldl (fun s r => update_radar_blips r s) []

/-- The telemetry snapshot fields a widget could touch (`system_status`,
lines 21-30), restricted to representative members: the radar widget reads
and writes none of them. -/
structure Telemetry where
  battery_level : ℤ
  threat_level : String
  deriving DecidableEq, Repr

/-- The shared mutable state visible to `draw_radar_display`: the scan
angle and the blip list it updates in place, and the telemetry snapshot. -/
structure HudState where
  scan_angle : ℤ
  radar_blips : List Blip
  system_status : Telemetry
  deriving DecidableEq, Repr

/-- The effect of one `draw_radar_display` call (lines 246-308) on the
shared state: `self.scan_angle = (self.scan_angle + 3) % 360` (line 267)
and the blip update of lines 274-299; the telemetry snapshot is not
touched.  The pixels painted on the frame are not modelled — only the state
effect, which is what the purity claim is about. -/
def draw_radar_display_state (r : RadarRoll) (s : HudState) : HudState :=
  { s with
    scan_angle := (s.scan_angle + 3) % 360
    radar_blips := update_radar_blips r s.radar_blips }

/-- A concrete tick draw: the spawn gate fires, every roll is 0. -/
def rollSpawn0 : RadarRoll :=
  { gate := true, angleRoll := 0, distRoll := 0, typeRoll := 0, ltRoll := 0 }

/-- A concrete tick draw: the spawn gate does not fire. -/
def rollNoSpawn : RadarRoll :=
  { gate := false, angleRoll := 0, distRoll := 0, typeRoll := 0, ltRoll := 0 }

/-- A concrete tick draw whose angle roll makes `randint(0, 360)` return its
included upper endpoint 360. -/
def rollAngle360 : RadarRoll :=
  { gate := true, angleRoll := 360, distRoll := 0, typeRoll := 0, ltRoll := 0 }

/-- A concrete radar contact. -/
def blipSample : Blip :=
  { angle := 0, distance := 20, btype := .friend, lifetime := 100 }

/-- A concrete shared state: scan angle 0, no contacts, a fixed snapshot. -/
def hudState0 : HudState :=
  { scan_angle := 0, radar_blips := [],
    system_status := { battery_level := 100, threat_level := "LOW" } }

/-!  ## Helper lemmas -/

theorem recognize_gesture_of_length (l : List Landmark) (h : 21 ≤ l.length) :
    recognize_gesture l = .ok (classify_points
      (l.get ⟨3, by omega⟩) (l.get ⟨4, by omega⟩)
      (l.get ⟨6, by omega⟩) (l.get ⟨8, by omega⟩)
      (l.get ⟨10, by omega⟩) (l.get ⟨12, by omega⟩)
      (l.get ⟨14, by omega⟩) (l.get ⟨16, by omega⟩)
      (l.get ⟨18, by omega⟩) (l.get ⟨20, by omega⟩)) := by
  have hne : l ≠ [] := by
    intro he
    rw [he] at h
    simp at h
  rw [recognize_gesture, if_neg hne, dif_neg (by omega)]

theorem mkHand_length (f : Nat → ℚ) : (mkHand f).length = 21 := by
  simp [mkHand]

theorem mkHand_get (f : Nat → ℚ) (i : Nat) (h : i < (mkHand f).length) :
    (mkHand f).get ⟨i, h⟩ = { x := 0, y := f i } := by
  simp [mkHand, List.get_eq_getElem]

theorem recognize_gesture_mkHand (f : Nat → ℚ) :
    recognize_gesture (mkHand f) = .ok (classify_chain
      (decide (f 4 < f 3)) (decide (f 8 < f 6)) (decide (f 12 < f 10))
      (decide (f 16 < f 14)) (decide (f 20 < f 18))
      (decide ((f 4 - f 8) ^ 2 < (5 / 100) ^ 2))) := by
  rw [recognize_gesture_of_length (mkHand f) (by rw [mkHand_length])]
  simp only [mkHand_get, classify_points, is_finger_extended, thumb_index_close,
    calculate_distance_sq, sub_self, zero_pow, zero_add]
  norm_num

theorem recognize_handPeace : recognize_gesture handPeace = .ok "peace" := by
  rw [handPeace, recognize_gesture_mkHand,
    decide_eq_false (show ¬(((yPeace 4 - yPeace 8 : ℚ)) ^ 2 < (5 / 100) ^ 2) by
      norm_num [yPeace])]
  rfl

theorem recognize_handOpenPalm : recognize_gesture handOpenPalm = .ok "open_palm" := by
  rw [handOpenPalm, recognize_gesture_mkHand,
    decide_eq_false (show ¬(((yOpenPalm 4 - yOpenPalm 8 : ℚ)) ^ 2 < (5 / 100) ^ 2) by
      norm_num [yOpenPalm])]
  rfl

theorem recognize_handOpenThumbClose :
    recognize_gesture handOpenThumbClose = .ok "open_palm" := by
  rw [handOpenThumbClose, recognize_gesture_mkHand,
    decide_eq_true (show ((yOpenThumbClose 4 - yOpenThumbClose 8 : ℚ)) ^ 2 < (5 / 100) ^ 2 by
      norm_num [yOpenThumbClose])]
  rfl

theorem recognize_handAllDown : recognize_gesture handAllDown = .ok "thumbs_down" := by
  rw [handAllDown, recognize_gesture_mkHand,
    decide_eq_true (show ((yAllDown 4 - yAllDown 8 : ℚ)) ^ 2 < (5 / 100) ^ 2 by
      norm_num [yAllDown])]
  rfl

theorem classify_chain_retracted_false (c : Bool) :
    classify_chain false false false false false c = "thumbs_down" := by
  cases c <;> rfl

theorem classify_chain_retracted_true (c : Bool) :
    classify_chain true false false false false c = "thumbs_up" := by
  cases c <;> rfl

theorem classify_chain_ne_fist (b1 b2 b3 b4 b5 b6 : Bool) :
    classify_chain b1 b2 b3 b4 b5 b6 ≠ "fist" := by
  cases b1 <;> cases b2 <;> cases b3 <;> cases b4 <;> cases b5 <;> cases b6 <;> decide

theorem classify_chain_okpose (b1 : Bool) :
    classify_chain b1 false true true true true = "ok" := by
  cases b1 <;> rfl

/-!  ## Claim theorems -/

/-- C1 (amended): the classifier fails closed only for the empty input: an
empty landmark sequence yields "unknown" without raising; a full sequence
(21 points or more) always yields some label without raising; but a
non-empty sequence of fewer than 21 points raises IndexError instead of
returning "unknown". -/
theorem c1_malformed_input (l : List Landmark) :
    (l = [] → recognize_gesture l = .ok "unknown") ∧
    (l ≠ [] → l.length < 21 → recognize_gesture l = .error .indexError) ∧
    (21 ≤ l.length → ∃ g, recognize_gesture l = .ok g) := by
  refine ⟨fun he => by rw [he]; rfl, fun hne hlt => ?_, fun hlen => ?_⟩
  · rw [recognize_gesture, if_neg hne, dif_pos hlt]
  · exact ⟨_, recognize_gesture_of_length l hlen⟩

/-- C1 counterexample: on a single-landmark input (fewer than 21 points)
`recognize_gesture` raises IndexError rather than returning "unknown". -/
theorem c1_short_input_raises :
    recognize_gesture [({ x := 0, y := 0 } : Landmark)] = .error .indexError ∧
    recognize_gesture [({ x := 0, y := 0 } : Landmark)] ≠ .ok "unknown" :=
  ⟨rfl, fun h => Except.noConfusion h⟩

/-- C1 witness: the three amended cases at concrete inputs. -/
theorem c1_malformed_input_witness :
    recognize_gesture [] = .ok "unknown" ∧
    recognize_gesture [({ x := 0, y := 0 } : Landmark)] = .error .indexError ∧
    ∃ g, recognize_gesture handAllDown = .ok g :=
  ⟨(c1_malformed_input []).1 rfl,
   (c1_malformed_input [{ x := 0, y := 0 }]).2.1 (by decide) (by decide),
   (c1_malformed_input handAllDown).2.2 (by rw [handAllDown, mkHand_length])⟩

/-- C2 (amended): the gesture emitted for a frame is the classification of
the LAST detected hand — the loop reassigns `gesture` once per hand — given
that every detected hand classifies without raising. -/
theorem c2_last_hand_wins (hs : List (List Landmark)) (hne : hs ≠ [])
    (hok : ∀ hand ∈ hs, ∃ g, recognize_gesture hand = .ok g) :
    process_hands hs = recognize_gesture (hs.getLast hne) := by
  rw [process_hands]
  generalize "no_hand" = g0
  induction hs generalizing g0 with
  | nil => exact absurd rfl hne
  | cons a t ih =>
    obtain ⟨g, hg⟩ := hok a (List.mem_cons_self a t)
    cases t with
    | nil =>
      show (recognize_gesture a >>= fun g2 => process_hands_loop g2 []) = recognize_gesture a
      rw [hg]
      rfl
    | cons b t2 =>
      show (recognize_gesture a >>= fun g2 => process_hands_loop g2 (b :: t2)) =
        recognize_gesture ((a :: b :: t2).getLast hne)
      rw [hg, List.getLast_cons (List.cons_ne_nil b t2)]
      exact ih (List.cons_ne_nil b t2)
        (fun hand hm => hok hand (List.mem_cons_of_mem a hm)) g

/-- C2 counterexample: with two hands detected — the first classifying as
"peace", the second as "open_palm" — the frame gesture is "open_palm", the
classification of the second, not of the first, hand. -/
theorem c2_first_hand_loses :
    process_hands [handPeace, handOpenPalm] = .ok "open_palm" ∧
    recognize_gesture handPeace = .ok "peace" ∧
    ("open_palm" : String) ≠ "peace" := by
  refine ⟨?_, recognize_handPeace, by decide⟩
  show (recognize_gesture handPeace >>= fun g =>
    recognize_gesture handOpenPalm >>= fun g2 => process_hands_loop g2 []) = .ok "open_palm"
  rw [recognize_handPeace, recognize_handOpenPalm]
  rfl

/-- C2 witness: the amended claim at a concrete two-hand frame. -/
theorem c2_last_hand_wins_witness :
    process_hands [handAllDown, handPeace] =
      recognize_gesture ([handAllDown, handPeace].getLast (by decide)) :=
  c2_last_hand_wins [handAllDown, handPeace] (by decide) (by
    intro hand hm
    rcases List.mem_cons.mp hm with rfl | hm2
    · exact ⟨_, recognize_handAllDown⟩
    · rcases List.mem_cons.mp hm2 with rfl | hm3
      · exact ⟨_, recognize_handPeace⟩
      · exact absurd hm3 (List.not_mem_nil hand))

/-- C3: on a full 21-landmark input whose four finger-extension predicates
(index, middle, ring, pinky) are all false, the classifier returns
"thumbs_up" when the thumb-extension predicate holds and "thumbs_down"
otherwise; in particular the output lies in the set containing "fist",
"thumbs_up" and "thumbs_down", is determined solely by the thumb predicate,
and is never "unknown".  (With all five predicates false — the claim as
worded — the thumb predicate is false and the output is "thumbs_down".) -/
theorem c3_all_retracted (l : List Landmark) (hlen : 21 ≤ l.length)
    (hIdx : is_finger_extended (l.get ⟨8, by omega⟩) (l.get ⟨6, by omega⟩) = false)
    (hMid : is_finger_extended (l.get ⟨12, by omega⟩) (l.get ⟨10, by omega⟩) = false)
    (hRing : is_finger_extended (l.get ⟨16, by omega⟩) (l.get ⟨14, by omega⟩) = false)
    (hPinky : is_finger_extended (l.get ⟨20, by omega⟩) (l.get ⟨18, by omega⟩) = false) :
    ∃ g, recognize_gesture l = .ok g ∧
      g = (if is_finger_extended (l.get ⟨4, by omega⟩) (l.get ⟨3, by omega⟩) then "thumbs_up"
        else "thumbs_down") ∧
      (g = "fist" ∨ g = "thumbs_up" ∨ g = "thumbs_down") ∧ g ≠ "unknown" := by
  rw [recognize_gesture_of_length l hlen, classify_points, hIdx, hMid, hRing, hPinky]
  cases hb : is_finger_extended (l.get ⟨4, by omega⟩) (l.get ⟨3, by omega⟩)
  · exact ⟨"thumbs_down", by rw [classify_chain_retracted_false], rfl,
      Or.inr (Or.inr rfl), by decide⟩
  · exact ⟨"thumbs_up", by rw [classify_chain_retracted_true], rfl,
      Or.inr (Or.inl rfl), by decide⟩

/-- C3 witness: the all-retracted hand classifies inside the allowed set and
not as "unknown". -/
theorem c3_all_retracted_witness :
    ∃ g, recognize_gesture handAllDown = .ok g ∧
      (g = "fist" ∨ g = "thumbs_up" ∨ g = "thumbs_down") ∧ g ≠ "unknown" := by
  obtain ⟨g, hg, _, hmem, hunk⟩ :=
    c3_all_retracted handAllDown (by rw [handAllDown, mkHand_length]) (by decide)
      (by decide) (by decide) (by decide)
  exact ⟨g, hg, hmem, hunk⟩

/-- C9 counterexample: a full hand satisfying the claim hypotheses — thumb
tip within 0.05 of the index tip and middle, ring, pinky extended — but
with the index also extended classifies as "open_palm" (the earlier
open-palm branch fires), not as "ok". -/
theorem c9_index_extended_gives_open_palm :
    recognize_gesture handOpenThumbClose = .ok "open_palm" ∧
    calculate_distance_sq (handOpenThumbClose.get ⟨4, by decide⟩)
      (handOpenThumbClose.get ⟨8, by decide⟩) < (5 / 100) ^ 2 ∧
    is_finger_extended (handOpenThumbClose.get ⟨12, by decide⟩)
      (handOpenThumbClose.get ⟨10, by decide⟩) = true ∧
    is_finger_extended (handOpenThumbClose.get ⟨16, by decide⟩)
      (handOpenThumbClose.get ⟨14, by decide⟩) = true ∧
    is_finger_extended (handOpenThumbClose.get ⟨20, by decide⟩)
      (handOpenThumbClose.get ⟨18, by decide⟩) = true ∧
    ("open_palm" : String) ≠ "ok" := by
  refine ⟨recognize_handOpenThumbClose, ?_, by decide, by decide, by decide, by decide⟩
  simp only [handOpenThumbClose, mkHand_get]
  norm_num [calculate_distance_sq, yOpenThumbClose]

/-- C9 (amended): on a full 21-landmark input whose thumb-tip-to-index-tip
squared planar distance is below 0.05 squared, whose middle, ring and pinky
extension predicates are true, AND whose index extension predicate is
false, the classifier returns "ok". -/
theorem c9_ok_gesture (l : List Landmark) (hlen : 21 ≤ l.length)
    (hIdx : is_finger_extended (l.get ⟨8, by omega⟩) (l.get ⟨6, by omega⟩) = false)
    (hMid : is_finger_extended (l.get ⟨12, by omega⟩) (l.get ⟨10, by omega⟩) = true)
    (hRing : is_finger_extended (l.get ⟨16, by omega⟩) (l.get ⟨14, by omega⟩) = true)
    (hPinky : is_finger_extended (l.get ⟨20, by omega⟩) (l.get ⟨18, by omega⟩) = true)
    (hClose : calculate_distance_sq (l.get ⟨4, by omega⟩) (l.get ⟨8, by omega⟩)
      < (5 / 100) ^ 2) :
    recognize_gesture l = .ok "ok" := by
  have hc : thumb_index_close (l.get ⟨4, by omega⟩) (l.get ⟨8, by omega⟩) = true :=
    decide_eq_true hClose
  rw [recognize_gesture_of_length l hlen, classify_points, hIdx, hMid, hRing, hPinky, hc,
    classify_chain_okpose]

/-- C9 witness: the amended claim at a concrete hand. -/
theorem c9_ok_gesture_witness : recognize_gesture handOkPose = .ok "ok" :=
  c9_ok_gesture handOkPose (by rw [handOkPose, mkHand_length]) (by decide) (by decide)
    (by decide) (by decide)
    (by simp only [handOkPose, mkHand_get]; norm_num [calculate_distance_sq, yOkPose])

/-- C10: `recognize_gesture` never returns "fist": whenever the fist branch
could fire (no finger extended), the boolean thumb predicate has already
routed the input to the thumbs-up or the thumbs-down branch. -/
theorem c10_fist_unreachable (l : List Landmark) :
    recognize_gesture l ≠ .ok "fist" := by
  intro h
  by_cases he : l = []
  · rw [he] at h
    exact absurd (Except.ok.inj h) (by decide)
  · by_cases hlt : l.length < 21
    · rw [recognize_gesture, if_neg he, dif_pos hlt] at h
      exact Except.noConfusion h
    · rw [recognize_gesture_of_length l (by omega)] at h
      exact classify_chain_ne_fist _ _ _ _ _ _ (Except.ok.inj h)

/-- C10 witness: the unreachability applied at a concrete all-retracted
hand. -/
theorem c10_fist_unreachable_witness :
    recognize_gesture handAllDown ≠ .ok "fist" :=
  c10_fist_unreachable handAllDown

/-- C4 counterexample: `draw_progress_bar` does not clamp the fraction.
With fraction 2 > 1 a pixel to the right of the track is filled that the
fraction-1 rendering leaves black, and with fraction -1 < 0 a pixel to the
left of the track is filled that the fraction-0 rendering leaves black. -/
theorem c4_no_clamping :
    (1 : ℚ) < 2 ∧ (-1 : ℚ) < 0 ∧
    (draw_progress_bar blackImg 5 0 10 2 2).pix 18 1 ≠
      (draw_progress_bar blackImg 5 0 10 2 1).pix 18 1 ∧
    (draw_progress_bar blackImg 5 0 10 2 (-1)).pix 2 1 ≠
      (draw_progress_bar blackImg 5 0 10 2 0).pix 2 1 := by
  have h20 : pyInt (((10 : ℤ) : ℚ) * 2) = 20 := by
    rw [pyInt, if_pos (by norm_num),
      show (((10 : ℤ) : ℚ) * 2) = ((20 : ℤ) : ℚ) by norm_num, Int.floor_intCast]
  have h10 : pyInt (((10 : ℤ) : ℚ) * 1) = 10 := by
    rw [pyInt, if_pos (by norm_num),
      show (((10 : ℤ) : ℚ) * 1) = ((10 : ℤ) : ℚ) by norm_num, Int.floor_intCast]
  have hm10 : pyInt (((10 : ℤ) : ℚ) * (-1)) = -10 := by
    rw [pyInt, if_neg (by norm_num),
      show (-(((10 : ℤ) : ℚ) * (-1))) = ((10 : ℤ) : ℚ) by norm_num, Int.floor_intCast]
  have h0 : pyInt (((10 : ℤ) : ℚ) * 0) = 0 := by
    rw [pyInt, if_pos (by norm_num),
      show (((10 : ℤ) : ℚ) * 0) = ((0 : ℤ) : ℚ) by norm_num, Int.floor_intCast]
  refine ⟨by norm_num, by norm_num, ?_, ?_⟩
  · simp only [draw_progress_bar, h20, h10]
    decide
  · simp only [draw_progress_bar, hm10, h0]
    decide

/-- C4 (amended): `draw_progress_bar` renders from the raw fraction with no
clamping: the output depends on the fraction only through the fill edge
offset `int(width * fraction)` — so fractions outside [0, 1] produce fills
wider than the track or to its left, as the counterexample shows — while a
fraction already in [0, 1] yields an offset between 0 and the width. -/
theorem c4_fraction_unclamped (img : Img) (x y w h : ℤ) (p q : ℚ) :
    (pyInt ((w : ℚ) * p) = pyInt ((w : ℚ) * q) →
      draw_progress_bar img x y w h p = draw_progress_bar img x y w h q) ∧
    (0 ≤ p → p ≤ 1 → 0 ≤ w → 0 ≤ pyInt ((w : ℚ) * p) ∧ pyInt ((w : ℚ) * p) ≤ w) := by
  constructor
  · intro hpq
    simp only [draw_progress_bar, hpq]
  · intro hp0 hp1 hw
    have hwq : (0 : ℚ) ≤ (w : ℚ) := by exact_mod_cast hw
    have hprod : (0 : ℚ) ≤ (w : ℚ) * p := mul_nonneg hwq hp0
    rw [pyInt, if_pos hprod]
    refine ⟨Int.floor_nonneg.mpr hprod, ?_⟩
    have hle : (w : ℚ) * p ≤ (w : ℚ) := by
      calc (w : ℚ) * p ≤ (w : ℚ) * 1 := mul_le_mul_of_nonneg_left hp1 hwq
        _ = (w : ℚ) := mul_one _
    calc ⌊(w : ℚ) * p⌋ ≤ ⌊((w : ℤ) : ℚ)⌋ := Int.floor_le_floor hle
      _ = w := Int.floor_intCast w

/-- C4 witness: the amended claim at concrete arguments. -/
theorem c4_fraction_unclamped_witness :
    draw_progress_bar blackImg 5 0 10 2 (1 / 2) = draw_progress_bar blackImg 5 0 10 2 (1 / 2) ∧
    (0 ≤ pyInt (((10 : ℤ) : ℚ) * (1 / 2)) ∧ pyInt (((10 : ℤ) : ℚ) * (1 / 2)) ≤ 10) :=
  ⟨(c4_fraction_unclamped blackImg 5 0 10 2 (1 / 2) (1 / 2)).1 rfl,
   (c4_fraction_unclamped blackImg 5 0 10 2 (1 / 2) (1 / 2)).2 (by norm_num) (by norm_num)
     (by norm_num)⟩

/-- C5: after a telemetry tick at elapsed time t ≥ 0 seconds the battery
level equals max(10, 100 - floor(t / 10)); it is non-increasing as t grows,
never falls below 10, and equals 95 at t = 50 seconds. -/
theorem c5_battery_decay :
    (∀ t : ℚ, 0 ≤ t → update_battery_level t = max 10 (100 - ⌊t / 10⌋)) ∧
    (∀ t1 t2 : ℚ, 0 ≤ t1 → t1 ≤ t2 → update_battery_level t2 ≤ update_battery_level t1) ∧
    (∀ t : ℚ, 10 ≤ update_battery_level t) ∧
    update_battery_level 50 = 95 := by
  have heq : ∀ t : ℚ, 0 ≤ t → update_battery_level t = max 10 (100 - ⌊t / 10⌋) := by
    intro t ht
    rw [update_battery_level, pyInt, if_pos (div_nonneg ht (by norm_num))]
  refine ⟨heq, ?_, fun t => le_max_left _ _, ?_⟩
  · intro t1 t2 h1 h12
    rw [heq t1 h1, heq t2 (le_trans h1 h12)]
    have hfl : ⌊t1 / 10⌋ ≤ ⌊t2 / 10⌋ := Int.floor_le_floor (by linarith)
    exact max_le_max (le_refl 10) (by omega)
  · rw [heq 50 (by norm_num),
      show ((50 : ℚ) / 10) = ((5 : ℤ) : ℚ) by norm_num, Int.floor_intCast]
    decide

/-- C5 witness: the battery claims at concrete times. -/
theorem c5_battery_decay_witness :
    update_battery_level 50 = max 10 (100 - ⌊(50 : ℚ) / 10⌋) ∧
    update_battery_level 60 ≤ update_battery_level 50 ∧
    10 ≤ update_battery_level 7 :=
  ⟨c5_battery_decay.1 50 (by norm_num),
   c5_battery_decay.2.1 50 60 (by norm_num) (by norm_num),
   c5_battery_decay.2.2.1 7⟩

theorem update_radar_blips_length_le (r : RadarRoll) (s : List Blip) (h : s.length ≤ 8) :
    (update_radar_blips r s).length ≤ 8 := by
  simp only [update_radar_blips]
  refine le_trans (List.length_filter_le _ _) ?_
  rw [List.length_map]
  by_cases hc : r.gate ∧ s.length < 8
  · rw [if_pos hc, List.length_append]
    simp only [List.length_singleton]
    omega
  · rw [if_neg hc]
    exact h

/-- C6: starting from the empty contact set, after any sequence of radar
ticks the number of contacts never exceeds 8; and once 8 contacts are
present a spawn attempt is silently skipped — a tick whose spawn gate fires
computes exactly the same state as one whose gate does not fire, so no
ninth contact is ever added and no error is raised. -/
theorem c6_radar_capacity :
    (∀ rolls : List RadarRoll, (run_radar rolls).length ≤ 8) ∧
    (∀ (r : RadarRoll) (s : List Blip), 8 ≤ s.length →
      update_radar_blips r s = update_radar_blips { r with gate := false } s) := by
  constructor
  · intro rolls
    rw [run_radar]
    have key : ∀ (rs : List RadarRoll) (s : List Blip), s.length ≤ 8 →
        (rs.foldl (fun s r => update_radar_blips r s) s).length ≤ 8 := by
      intro rs
      induction rs with
      | nil => exact fun s h => h
      | cons a t ih => exact fun s h => ih _ (update_radar_blips_length_le a s h)
    exact key rolls [] (by simp)
  · intro r s h8
    simp only [update_radar_blips]
    rw [if_neg (fun hc => absurd hc.2 (by omega)),
      if_neg (fun hc => absurd hc.2 (by omega))]

/-- C6 witness: the capacity bound after one tick, and the skipped spawn at
a concrete full contact set. -/
theorem c6_radar_capacity_witness :
    (run_radar [rollSpawn0]).length ≤ 8 ∧
    update_radar_blips rollSpawn0 (List.replicate 8 blipSample) =
      update_radar_blips { rollSpawn0 with gate := false } (List.replicate 8 blipSample) :=
  ⟨c6_radar_capacity.1 _, c6_radar_capacity.2 _ _ (by simp)⟩

/-- C7 counterexample: `random.randint(0, 360)` includes its upper bound,
so a legitimate draw spawns a contact with angle exactly 360 — outside the
claimed 0..359 range. -/
theorem c7_angle_360_possible :
    (spawn_radar_blip rollAngle360).angle = 360 ∧
    ¬((spawn_radar_blip rollAngle360).angle < 360) := by
  constructor <;> decide

/-- C7 (amended): every spawned radar contact has angle in [0, 360] — the
upper endpoint included, because randint is inclusive — distance in
[20, R - 30] where R = radar_size // 2 = 110 is the drawable radius, and
lifetime in [50, 200]. -/
theorem c7_spawn_ranges (r : RadarRoll) :
    0 ≤ (spawn_radar_blip r).angle ∧ (spawn_radar_blip r).angle ≤ 360 ∧
    20 ≤ (spawn_radar_blip r).distance ∧
    (spawn_radar_blip r).distance ≤ radar_size / 2 - 30 ∧
    50 ≤ (spawn_radar_blip r).lifetime ∧ (spawn_radar_blip r).lifetime ≤ 200 := by
  simp only [spawn_radar_blip, randint, radar_size]
  omega

/-- C8 counterexample: the radar widget is not state-preserving: from scan
angle 0, an empty radar set and a fixed telemetry snapshot, one invocation
of `draw_radar_display` (spawn gate not firing) leaves a different state —
the scan angle has advanced to 3. -/
theorem c8_radar_widget_mutates_state :
    draw_radar_display_state rollNoSpawn hudState0 ≠ hudState0 := by
  decide

/-- C8 (amended): the widget draw routines are not all state-preserving:
`draw_radar_display` advances the shared scan angle by 3 degrees with
wraparound (the new angle is always in [0, 360)) and ticks the radar blip
set on every invocation; it does leave the telemetry snapshot unchanged,
and with the random draws supplied as inputs its state effect is a
function of its inputs. -/
theorem c8_radar_widget_state_effect (r : RadarRoll) (s : HudState) :
    (draw_radar_display_state r s).system_status = s.system_status ∧
    (draw_radar_display_state r s).scan_angle = (s.scan_angle + 3) % 360 ∧
    0 ≤ (draw_radar_display_state r s).scan_angle ∧
    (draw_radar_display_state r s).scan_angle < 360 ∧
    (draw_radar_display_state r s).radar_blips = update_radar_blips r s.radar_blips :=
  ⟨rfl, rfl, Int.emod_nonneg _ (by norm_num), Int.emod_lt_of_pos _ (by norm_num), rfl⟩
